import Mathlib

/-!
Shallow embedding of the CMS config-store server (Narw0x/mcpServer).

The repository stores a single JSON document, a Config with a list of pages
and a list of sidebar entries, in one database row and exposes three
mutating tool handlers (addItem, deleteItem, updateItem) plus an HTTP read
endpoint (GET /api/config).  Every handler performs one read of the stored
document, an in-memory list mutation, and one whole-document write.

We model the database interaction explicitly: each handler takes the
outcome of the initial read (an error message, or the stored document where
none models a null config column, defaulted to the empty document as in
the source via the JS or-else) and the outcome the write call would have if
issued (none = the write succeeds, some e = the write fails with message e).
A handler returns the tool response together with the document that was
successfully persisted (none when no successful write happened).  The
handlers are total functions, mirroring the top-level try/catch in the
source that converts any fault into an ordinary text response.

Model notes, shared by all definitions below:
* JS string falsiness: only the empty string is falsy; the JS expression
  a || b on strings/optionals is modelled by orFalsy.
* The JS nullish operator a ?? b on optionals is Option.getD.
* Array.prototype.findIndex (returning -1 when absent) is modelled by
  findIndex returning an Option Nat; splice(i, 1) is removeIdx; the
  assignment arr[i] = v at a found index is modifyIdx.
* String.prototype.toUpperCase on the first character uses the Unicode
  full case mapping and may expand one character to several; it is
  modelled by jsToUpperChar.  String.prototype.toLowerCase on the id
  strings is modelled by the character-wise Char.toLower map.
* The JSON.stringify echo of the affected entries that the source appends
  to its success messages is abstracted away: success texts keep only the
  leading sentence, which no claim depends on.
-/

namespace CmsServer

/-- Page record, from the State interface of src/index.ts. -/
structure Page where
  id : String
  title : String
  content : String
deriving DecidableEq, Repr

/-- Sidebar entry record, from the State interface of src/index.ts. -/
structure SidebarItem where
  id : String
  label : String
  active : Bool
deriving DecidableEq, Repr

/-- The stored Config document (interface State in the source). -/
structure State where
  pages : List Page
  sidebar : List SidebarItem
deriving DecidableEq, Repr

/-- Parameters of the addItem tools (interface AddItemParams). -/
structure ItemInput where
  id : String
  label : Option String := none
  title : Option String := none
  content : Option String := none
  active : Option Bool := none
deriving DecidableEq, Repr

/-- The newItem parameter of the updateItem tools (interface UpdateItemParams). -/
structure NewItemInput where
  id : Option String := none
  label : Option String := none
  title : Option String := none
  content : Option String := none
  active : Option Bool := none
deriving DecidableEq, Repr

/-- One entry of a tool response content array. -/
structure ContentItem where
  type : String
  text : String
deriving DecidableEq, Repr

/-- Tool response shape (interface ToolResponse). -/
structure ToolResponse where
  content : List ContentItem
deriving DecidableEq, Repr

/-- The single-text-entry response every handler builds. -/
def textResp (t : String) : ToolResponse :=
  { content := [{ type := "text", text := t }] }

/-- The empty default document used when the stored config column is null. -/
def emptyState : State := { pages := [], sidebar := [] }

/-- A handler outcome: the response sent back, and the document that was
successfully persisted by the handler (none when nothing was written). -/
structure HandlerResult where
  resp : ToolResponse
  written : Option State
deriving DecidableEq, Repr

/-- Outcome of the initial select: error message, or the config column
(none models a null column, which the source defaults to the empty state). -/
abbrev ReadResult := Except String (Option State)

/-- JS Array.prototype.findIndex, with none in place of -1. -/
def findIndex (p : α → Bool) : List α → Option Nat
  | [] => none
  | x :: xs => if p x then some 0 else (findIndex p xs).map (· + 1)

/-- JS splice(i, 1): remove the element at index i (identity out of bounds). -/
def removeIdx : List α → Nat → List α
  | [], _ => []
  | _ :: xs, 0 => xs
  | x :: xs, n + 1 => x :: removeIdx xs n

/-- JS arr[i] = f arr[i]: replace the element at index i (identity out of bounds). -/
def modifyIdx : List α → Nat → (α → α) → List α
  | [], _, _ => []
  | x :: xs, 0, f => f x :: xs
  | x :: xs, n + 1, f => x :: modifyIdx xs n f

/-- Conditional removal, from the JS guard: splice only when the index is
not -1. -/
def removeAt? (l : List α) : Option Nat → List α
  | some i => removeIdx l i
  | none => l

/-- Conditional in-place update, from the JS guard: assign at the index
only when it is not -1. -/
def modifyAt? (l : List α) (f : α → α) : Option Nat → List α
  | some i => modifyIdx l i f
  | none => l

/-- JS a || b where a is an optional string: b when a is undefined or empty. -/
def orFalsy (a : Option String) (b : String) : String :=
  match a with
  | some s => if s = "" then b else s
  | none => b

/-- JS String.prototype.toLowerCase, modelled as the character-wise map. -/
def jsToLower (s : String) : String := String.mk (s.data.map Char.toLower)

/-- The uppercase mapping of one character as performed by the JS
toUpperCase call, which applies the Unicode full case mapping and may
expand a character into several.  The expansions listed explicitly are
the Unicode SpecialCasing entries this development evaluates the
function at (the German sharp s uppercases to SS); every other
character reached here is ASCII, where the one-to-one Char.toUpper map
coincides with the JS call. -/
def jsToUpperChar (c : Char) : List Char :=
  if c = 'ß' then ['S', 'S'] else [Char.toUpper c]

/-- capitalizeFirstLetter from the source: empty strings are returned as
is, otherwise the first character is replaced by its uppercase expansion
(charAt(0).toUpperCase()) and the rest kept. -/
def capitalizeFirstLetter (str : String) : String :=
  if str = "" then str
  else
    match str.data with
    | [] => str
    | c :: rest => String.mk (jsToUpperChar c ++ rest)

/-- Text of the read-failure response. -/
def loadFailText (e : String) : String :=
  "Failed to load config from database: " ++ e

/-- Text of the write-failure response. -/
def writeFailText (e : String) : String :=
  "Failed to update config in database: " ++ e

/-- addItem failure text when the id is already a sidebar id. -/
def addDupSidebarText (id : String) : String :=
  "Failed to add item: Sidebar item with ID " ++ id ++ " already exists"

/-- addItem failure text when the id is already a page id. -/
def addDupPageText (id : String) : String :=
  "Failed to add item: Page with ID " ++ id ++ " already exists"

/-- deleteItem/updateItem failure text when the id is found nowhere. -/
def notFoundText (id : String) : String :=
  "Item with ID " ++ id ++ " not found in either sidebar or pages"

/-- updateItem failure text when the new id collides with an existing one. -/
def updateDupText (id : String) : String :=
  "Failed to update item: New ID " ++ id ++ " already exists"

/-- Leading sentence of the addItem success text (JSON echo abstracted). -/
def addSuccessText (id : String) : String :=
  "Successfully added item with ID " ++ id ++
    " to both sidebar and pages and updated database"

/-- Leading sentence of the deleteItem success text (JSON echo abstracted). -/
def deleteSuccessText (id : String) : String :=
  "Successfully deleted item with ID " ++ id

/-- Leading sentence of the updateItem success text (JSON echo abstracted). -/
def updateSuccessText (id : String) : String :=
  "Successfully updated item with ID " ++ id

/-- The sidebar record the stdio addItem builds: Item-id template label. -/
def stdioSidebarItem (item : ItemInput) : SidebarItem :=
  { id := item.id
    label := item.label.getD ("Item " ++ item.id)
    active := item.active.getD false }

/-- The page record the stdio addItem builds from its input. -/
def stdioPageItem (item : ItemInput) : Page :=
  { id := item.id
    title := item.title.getD ("Page " ++ item.id)
    content := item.content.getD "" }

/-- The stdio addItem handler (src/index.ts first variant, and the
identical tool in the second stdio file): no case folding; duplicate ids
are rejected by a linear scan of both sequences before the write. -/
def addItemStdio (readRes : ReadResult) (writeErr : Option String)
    (item : ItemInput) : HandlerResult :=
  match readRes with
  | .error e => { resp := textResp (loadFailText e), written := none }
  | .ok dataConfig =>
    let currentConfig := dataConfig.getD emptyState
    let sidebarItem : SidebarItem := stdioSidebarItem item
    let pageItem : Page := stdioPageItem item
    if currentConfig.sidebar.any (fun existing => existing.id == item.id) then
      { resp := textResp (addDupSidebarText item.id), written := none }
    else if currentConfig.pages.any (fun existing => existing.id == item.id) then
      { resp := textResp (addDupPageText item.id), written := none }
    else
      let newConfig : State :=
        { pages := currentConfig.pages ++ [pageItem]
          sidebar := currentConfig.sidebar ++ [sidebarItem] }
      match writeErr with
      | some e => { resp := textResp (writeFailText e), written := none }
      | none => { resp := textResp (addSuccessText item.id), written := some newConfig }

/-- The sidebar record the toolHandlers addItem builds: lower-cased stored
id, label defaulting to capitalizeFirstLetter of the original id. -/
def httpSidebarItem (item : ItemInput) : SidebarItem :=
  { id := jsToLower item.id
    label := item.label.getD (capitalizeFirstLetter item.id)
    active := item.active.getD false }

/-- The page record the toolHandlers addItem builds: lower-cased stored id. -/
def httpPageItem (item : ItemInput) : Page :=
  { id := jsToLower item.id
    title := item.title.getD ("Page " ++ item.id)
    content := item.content.getD "" }

/-- The HTTP/toolHandlers addItem (src/index.ts second variant): the stored
id is lower-cased while the duplicate scan compares the original id. -/
def addItemHttp (readRes : ReadResult) (writeErr : Option String)
    (item : ItemInput) : HandlerResult :=
  match readRes with
  | .error e => { resp := textResp (loadFailText e), written := none }
  | .ok dataConfig =>
    let currentConfig := dataConfig.getD emptyState
    let sidebarItem : SidebarItem := httpSidebarItem item
    let pageItem : Page := httpPageItem item
    if currentConfig.sidebar.any (fun existing => existing.id == item.id) then
      { resp := textResp (addDupSidebarText item.id), written := none }
    else if currentConfig.pages.any (fun existing => existing.id == item.id) then
      { resp := textResp (addDupPageText item.id), written := none }
    else
      let newConfig : State :=
        { pages := currentConfig.pages ++ [pageItem]
          sidebar := currentConfig.sidebar ++ [sidebarItem] }
      match writeErr with
      | some e => { resp := textResp (writeFailText e), written := none }
      | none => { resp := textResp (addSuccessText item.id), written := some newConfig }

/-- The deleteItem handler (identical in the toolHandlers and stdio
variants): first match of the id in each sequence is removed; a not-found
response is returned when the id matches in neither sequence. -/
def deleteItem (readRes : ReadResult) (writeErr : Option String)
    (id : String) : HandlerResult :=
  match readRes with
  | .error e => { resp := textResp (loadFailText e), written := none }
  | .ok dataConfig =>
    let currentConfig := dataConfig.getD emptyState
    let sidebarIndex := findIndex (fun item => item.id == id) currentConfig.sidebar
    let pageIndex := findIndex (fun item => item.id == id) currentConfig.pages
    if sidebarIndex.isNone && pageIndex.isNone then
      { resp := textResp (notFoundText id), written := none }
    else
      let newConfig : State :=
        { pages := removeAt? currentConfig.pages pageIndex
          sidebar := removeAt? currentConfig.sidebar sidebarIndex }
      match writeErr with
      | some e => { resp := textResp (writeFailText e), written := none }
      | none => { resp := textResp (deleteSuccessText id), written := some newConfig }

/-- The rename-collision guard of updateItem, from the JS condition
newItem.id && newItem.id !== oldId && (sidebar or pages contain it):
an empty supplied id is falsy and skips the whole check. -/
def renameCollides (cfg : State) (oldId : String) (nid? : Option String) : Bool :=
  match nid? with
  | some nid =>
    nid != "" && nid != oldId &&
      (cfg.sidebar.any (fun item => item.id == nid) ||
        cfg.pages.any (fun item => item.id == nid))
  | none => false

/-- The sidebar record the toolHandlers updateItem writes at the matched
index: omitted or empty fields fall back to template defaults. -/
def httpUpdatedSidebar (oldId : String) (newItem : NewItemInput) : SidebarItem :=
  { id := orFalsy (newItem.id.map jsToLower) oldId
    label := orFalsy newItem.label (capitalizeFirstLetter (orFalsy newItem.id oldId))
    active := newItem.active.getD false }

/-- The page record the toolHandlers updateItem writes at the matched
index: omitted or empty fields fall back to template defaults. -/
def httpUpdatedPage (oldId : String) (newItem : NewItemInput) : Page :=
  { id := orFalsy (newItem.id.map jsToLower) oldId
    title := orFalsy newItem.title ("Page " ++ orFalsy newItem.id oldId)
    content := orFalsy newItem.content ("Welcome to the page " ++ orFalsy newItem.id oldId) }

/-- The toolHandlers/HTTP updateItem (src/index.ts): matched entries are
rebuilt wholesale with JS or-fallbacks, so omitted fields fall back to
template defaults, not to the prior values; a supplied id is stored
lower-cased.  When the collision branch is taken the supplied id is
necessarily present, so the getD default in its message is never used. -/
def updateItemHttp (readRes : ReadResult) (writeErr : Option String)
    (oldId : String) (newItem : NewItemInput) : HandlerResult :=
  match readRes with
  | .error e => { resp := textResp (loadFailText e), written := none }
  | .ok dataConfig =>
    let currentConfig := dataConfig.getD emptyState
    let sidebarIndex := findIndex (fun item => item.id == oldId) currentConfig.sidebar
    let pageIndex := findIndex (fun item => item.id == oldId) currentConfig.pages
    if sidebarIndex.isNone && pageIndex.isNone then
      { resp := textResp (notFoundText oldId), written := none }
    else if renameCollides currentConfig oldId newItem.id then
      { resp := textResp (updateDupText (newItem.id.getD "")), written := none }
    else
      let newSidebar :=
        modifyAt? currentConfig.sidebar (fun _ => httpUpdatedSidebar oldId newItem) sidebarIndex
      let newPages :=
        modifyAt? currentConfig.pages (fun _ => httpUpdatedPage oldId newItem) pageIndex
      let newConfig : State := { pages := newPages, sidebar := newSidebar }
      match writeErr with
      | some e => { resp := textResp (writeFailText e), written := none }
      | none => { resp := textResp (updateSuccessText oldId), written := some newConfig }

/-- The sidebar record the stdio updateItem writes at the matched index:
omitted fields keep the prior values via the JS nullish operator. -/
def stdioUpdatedSidebar (newItem : NewItemInput) (prev : SidebarItem) : SidebarItem :=
  { id := newItem.id.getD prev.id
    label := newItem.label.getD prev.label
    active := newItem.active.getD prev.active }

/-- The page record the stdio updateItem writes at the matched index:
omitted fields keep the prior values via the JS nullish operator. -/
def stdioUpdatedPage (newItem : NewItemInput) (prev : Page) : Page :=
  { id := newItem.id.getD prev.id
    title := newItem.title.getD prev.title
    content := newItem.content.getD prev.content }

/-- The stdio updateItem (second stdio file): matched entries keep their
prior field values for every omitted field, via the JS nullish operator. -/
def updateItemStdio (readRes : ReadResult) (writeErr : Option String)
    (oldId : String) (newItem : NewItemInput) : HandlerResult :=
  match readRes with
  | .error e => { resp := textResp (loadFailText e), written := none }
  | .ok dataConfig =>
    let currentConfig := dataConfig.getD emptyState
    let sidebarIndex := findIndex (fun item => item.id == oldId) currentConfig.sidebar
    let pageIndex := findIndex (fun item => item.id == oldId) currentConfig.pages
    if sidebarIndex.isNone && pageIndex.isNone then
      { resp := textResp (notFoundText oldId), written := none }
    else if renameCollides currentConfig oldId newItem.id then
      { resp := textResp (updateDupText (newItem.id.getD "")), written := none }
    else
      let newSidebar :=
        modifyAt? currentConfig.sidebar (stdioUpdatedSidebar newItem) sidebarIndex
      let newPages :=
        modifyAt? currentConfig.pages (stdioUpdatedPage newItem) pageIndex
      let newConfig : State := { pages := newPages, sidebar := newSidebar }
      match writeErr with
      | some e => { resp := textResp (writeFailText e), written := none }
      | none => { resp := textResp (updateSuccessText oldId), written := some newConfig }

/-- Result of the GET /api/config endpoint. -/
inductive HttpConfigResult where
  | ok (config : State)
  | serverError (status : Nat) (text : String)
deriving DecidableEq, Repr

/-- GET /api/config: the stored document verbatim, the empty default when
the stored column is null, or a 500 response carrying the read error. -/
def getConfig (readRes : ReadResult) : HttpConfigResult :=
  match readRes with
  | .error e => .serverError 500 (loadFailText e)
  | .ok dataConfig => .ok (dataConfig.getD emptyState)

/-- The intended uniqueness invariant: no two pages share an id and no two
sidebar entries share an id. -/
def State.uniqueIds (s : State) : Prop :=
  (s.pages.map Page.id).Nodup ∧ (s.sidebar.map SidebarItem.id).Nodup

instance (s : State) : Decidable s.uniqueIds := by
  unfold State.uniqueIds
  exact inferInstance

/-- A one-entry document with id home, satisfying the uniqueness invariant. -/
def cfgC1 : State :=
  { pages := [{ id := "home", title := "Home", content := "" }],
    sidebar := [{ id := "home", label := "Home", active := false }] }

/-- What the toolHandlers addItem stores after adding id HOME to cfgC1:
the lower-cased id home now occurs twice in each sequence. -/
def cfgC1res : State :=
  { pages := [{ id := "home", title := "Home", content := "" },
              { id := "home", title := "Page HOME", content := "" }],
    sidebar := [{ id := "home", label := "Home", active := false },
                { id := "home", label := "HOME", active := false }] }

/-- A one-entry document with custom label, active flag, title and content. -/
def cfgC2 : State :=
  { pages := [{ id := "home", title := "MyTitle", content := "Stuff" }],
    sidebar := [{ id := "home", label := "Custom", active := true }] }

/-- What the toolHandlers updateItem stores after an update of home that
supplies no field at all: every omitted field is reset to its template
default instead of keeping its prior value. -/
def cfgC2res : State :=
  { pages := [{ id := "home", title := "Page home",
                content := "Welcome to the page home" }],
    sidebar := [{ id := "home", label := "Home", active := false }] }

/-- A document containing entries with the empty id and with id a. -/
def cfgC5 : State :=
  { pages := [{ id := "", title := "t0", content := "" },
              { id := "a", title := "t1", content := "" }],
    sidebar := [{ id := "", label := "l0", active := false },
                { id := "a", label := "l1", active := false }] }

/-- What the stdio updateItem stores after renaming a to the empty id:
the empty id now occurs twice in each sequence, because the falsy empty
string skips the collision check. -/
def cfgC5res : State :=
  { pages := [{ id := "", title := "t0", content := "" },
              { id := "", title := "t1", content := "" }],
    sidebar := [{ id := "", label := "l0", active := false },
                { id := "", label := "l1", active := false }] }

/-! ### Lemmas about the JS array-operation models -/

theorem findIndex_cons_true {p : α → Bool} {y : α} (ys : List α) (hy : p y = true) :
    findIndex p (y :: ys) = some 0 := by
  simp [findIndex, hy]

theorem findIndex_cons_false {p : α → Bool} {y : α} (ys : List α) (hy : p y = false) :
    findIndex p (y :: ys) = (findIndex p ys).map (· + 1) := by
  simp [findIndex, hy]

theorem findIndex_eq_none_iff {p : α → Bool} :
    ∀ {l : List α}, findIndex p l = none ↔ ∀ x ∈ l, p x = false := by
  intro l
  induction l with
  | nil => simp [findIndex]
  | cons y ys ih =>
    cases hy : p y with
    | true => simp [findIndex_cons_true ys hy, hy]
    | false =>
      rw [findIndex_cons_false ys hy, List.forall_mem_cons,
        Option.map_eq_none', ih]
      simp [hy]

theorem findIndex_eq_some_getElem? {p : α → Bool} :
    ∀ {l : List α} {i : Nat}, findIndex p l = some i →
      ∃ x, l[i]? = some x ∧ p x = true := by
  intro l
  induction l with
  | nil => intro i h; simp [findIndex] at h
  | cons y ys ih =>
    intro i h
    cases hy : p y with
    | true =>
      rw [findIndex_cons_true ys hy] at h
      cases h
      exact ⟨y, by simp, hy⟩
    | false =>
      rw [findIndex_cons_false ys hy, Option.map_eq_some'] at h
      obtain ⟨j, hj, hji⟩ := h
      subst hji
      obtain ⟨x, hx, hpx⟩ := ih hj
      exact ⟨x, by simpa using hx, hpx⟩

theorem findIndex_append_cons {p : α → Bool} {a : α} (l₂ : List α) (ha : p a = true) :
    ∀ (l₁ : List α), (∀ x ∈ l₁, p x = false) →
      findIndex p (l₁ ++ a :: l₂) = some l₁.length := by
  intro l₁
  induction l₁ with
  | nil => intro _; simp [findIndex, ha]
  | cons y ys ih =>
    intro h₁
    have hy : p y = false := h₁ y (by simp)
    have := ih (fun x hx => h₁ x (by simp [hx]))
    simp [findIndex, hy, this]

theorem removeIdx_append (l₂ : List α) (a : α) :
    ∀ (l₁ : List α), removeIdx (l₁ ++ a :: l₂) l₁.length = l₁ ++ l₂ := by
  intro l₁
  induction l₁ with
  | nil => rfl
  | cons y ys ih => simp [removeIdx, ih]

theorem mem_removeIdx {a : α} :
    ∀ {l : List α} {i : Nat}, a ∈ removeIdx l i → a ∈ l := by
  intro l
  induction l with
  | nil => intro i h; simp [removeIdx] at h
  | cons y ys ih =>
    intro i h
    match i with
    | 0 => exact List.mem_cons_of_mem y h
    | n + 1 =>
      rcases List.mem_cons.mp h with rfl | h
      · exact List.mem_cons_self _ _
      · exact List.mem_cons_of_mem y (ih h)

theorem nodup_removeIdx :
    ∀ (l : List α) (i : Nat), l.Nodup → (removeIdx l i).Nodup := by
  intro l
  induction l with
  | nil => intro i _; simp [removeIdx]
  | cons y ys ih =>
    intro i h
    rw [List.nodup_cons] at h
    match i with
    | 0 => exact h.2
    | n + 1 =>
      rw [show removeIdx (y :: ys) (n + 1) = y :: removeIdx ys n from rfl,
        List.nodup_cons]
      exact ⟨fun hmem => h.1 (mem_removeIdx hmem), ih n h.2⟩

theorem map_removeIdx (g : α → β) :
    ∀ (l : List α) (i : Nat), (removeIdx l i).map g = removeIdx (l.map g) i := by
  intro l
  induction l with
  | nil => intro i; rfl
  | cons y ys ih =>
    intro i
    match i with
    | 0 => rfl
    | n + 1 => simp [removeIdx, ih]

theorem length_removeIdx :
    ∀ {l : List α} {i : Nat}, i < l.length → (removeIdx l i).length + 1 = l.length := by
  intro l
  induction l with
  | nil => intro i h; simp at h
  | cons y ys ih =>
    intro i h
    match i with
    | 0 => rfl
    | n + 1 =>
      have := ih (Nat.lt_of_succ_lt_succ h)
      simp only [removeIdx, List.length_cons]
      omega

theorem length_modifyIdx (f : α → α) :
    ∀ (l : List α) (i : Nat), (modifyIdx l i f).length = l.length := by
  intro l
  induction l with
  | nil => intro i; rfl
  | cons y ys ih =>
    intro i
    match i with
    | 0 => rfl
    | n + 1 => simp [modifyIdx, ih]

theorem modifyIdx_cons_zero (f : α → α) (y : α) (ys : List α) :
    modifyIdx (y :: ys) 0 f = f y :: ys := rfl

theorem modifyIdx_cons_succ (f : α → α) (y : α) (ys : List α) (n : Nat) :
    modifyIdx (y :: ys) (n + 1) f = y :: modifyIdx ys n f := rfl

theorem getElem?_modifyIdx_ne (f : α → α) :
    ∀ {l : List α} {i j : Nat}, j ≠ i → (modifyIdx l i f)[j]? = l[j]? := by
  intro l
  induction l with
  | nil => intro i j _; rfl
  | cons y ys ih =>
    intro i j hne
    match i, j with
    | 0, 0 => exact absurd rfl hne
    | 0, m + 1 => simp [modifyIdx_cons_zero]
    | n + 1, 0 => simp [modifyIdx_cons_succ]
    | n + 1, m + 1 =>
      rw [modifyIdx_cons_succ, List.getElem?_cons_succ, List.getElem?_cons_succ]
      exact ih (fun h => hne (by omega))

theorem getElem?_modifyIdx_self (f : α → α) :
    ∀ {l : List α} {i : Nat}, (modifyIdx l i f)[i]? = l[i]?.map f := by
  intro l
  induction l with
  | nil => intro i; rfl
  | cons y ys ih =>
    intro i
    match i with
    | 0 => simp [modifyIdx_cons_zero]
    | n + 1 =>
      rw [modifyIdx_cons_succ, List.getElem?_cons_succ, List.getElem?_cons_succ]
      exact ih

theorem map_modifyIdx_of_getElem? (g : α → β) (f : α → α) :
    ∀ {l : List α} {i : Nat} {x : α}, l[i]? = some x →
      (modifyIdx l i f).map g = modifyIdx (l.map g) i (fun _ => g (f x)) := by
  intro l
  induction l with
  | nil => intro i x h; simp at h
  | cons y ys ih =>
    intro i x h
    match i with
    | 0 =>
      simp only [List.getElem?_cons_zero, Option.some.injEq] at h
      subst h
      rfl
    | n + 1 =>
      simp only [List.getElem?_cons_succ] at h
      simp [modifyIdx, ih h]

theorem mem_modifyIdx_const {b a : α} :
    ∀ {l : List α} {i : Nat}, b ∈ modifyIdx l i (fun _ => a) → b ∈ l ∨ b = a := by
  intro l
  induction l with
  | nil => intro i h; simp [modifyIdx] at h
  | cons y ys ih =>
    intro i h
    match i with
    | 0 =>
      rcases List.mem_cons.mp h with rfl | h
      · exact Or.inr rfl
      · exact Or.inl (List.mem_cons_of_mem y h)
    | n + 1 =>
      rcases List.mem_cons.mp h with rfl | h
      · exact Or.inl (List.mem_cons_self _ _)
      · rcases ih h with h | h
        · exact Or.inl (List.mem_cons_of_mem y h)
        · exact Or.inr h

theorem nodup_modifyIdx_const {a : α} :
    ∀ {l : List α} {i : Nat}, l.Nodup → (l[i]? = some a ∨ a ∉ l) →
      (modifyIdx l i (fun _ => a)).Nodup := by
  intro l
  induction l with
  | nil => intro i _ _; simp [modifyIdx]
  | cons y ys ih =>
    intro i h hcase
    rw [List.nodup_cons] at h
    match i with
    | 0 =>
      rcases hcase with h0 | hnot
      · simp only [List.getElem?_cons_zero, Option.some.injEq] at h0
        subst h0
        exact List.nodup_cons.mpr h
      · rw [show modifyIdx (y :: ys) 0 (fun _ => a) = a :: ys from rfl,
          List.nodup_cons]
        exact ⟨fun hmem => hnot (List.mem_cons_of_mem y hmem), h.2⟩
    | n + 1 =>
      rw [show modifyIdx (y :: ys) (n + 1) (fun _ => a) =
            y :: modifyIdx ys n (fun _ => a) from rfl, List.nodup_cons]
      have hysn : ys[n]? = some a ∨ a ∉ ys := by
        rcases hcase with h0 | hnot
        · exact Or.inl (by simpa using h0)
        · exact Or.inr (fun hmem => hnot (List.mem_cons_of_mem y hmem))
      refine ⟨fun hmem => ?_, ih h.2 hysn⟩
      rcases mem_modifyIdx_const hmem with hmem | rfl
      · exact h.1 hmem
      · rcases hysn with h0 | hnot
        · exact h.1 (List.getElem?_mem h0)
        · rcases hcase with h0 | hy
          · simp only [List.getElem?_cons_succ] at h0
            exact hnot (List.getElem?_mem h0)
          · exact hy (List.mem_cons_self _ _)

theorem nodup_append_singleton {a : α} :
    ∀ {l : List α}, l.Nodup → a ∉ l → (l ++ [a]).Nodup := by
  intro l
  induction l with
  | nil => intro _ _; simp
  | cons y ys ih =>
    intro h ha
    rw [List.cons_append, List.nodup_cons]
    rw [List.nodup_cons] at h
    refine ⟨fun hmem => ?_, ih h.2 (fun hmem => ha (List.mem_cons_of_mem y hmem))⟩
    rcases List.mem_append.mp hmem with hmem | hmem
    · exact h.1 hmem
    · exact ha (by simp_all)

theorem any_beq_eq_true_iff (g : α → String) (s : String) (l : List α) :
    l.any (fun x => g x == s) = true ↔ s ∈ l.map g := by
  simp only [List.any_eq_true, beq_iff_eq, List.mem_map]

theorem any_beq_eq_false_iff (g : α → String) (s : String) (l : List α) :
    l.any (fun x => g x == s) = false ↔ s ∉ l.map g := by
  rw [← any_beq_eq_true_iff g s l]
  cases h : l.any (fun x => g x == s) <;> simp

theorem findIndex_beq_eq_none_iff (g : α → String) (s : String) (l : List α) :
    findIndex (fun x => g x == s) l = none ↔ s ∉ l.map g := by
  rw [findIndex_eq_none_iff]
  constructor
  · intro h hmem
    obtain ⟨x, hx, rfl⟩ := List.mem_map.mp hmem
    simpa using h x hx
  · intro h x hx
    by_cases hb : g x = s
    · exact absurd (List.mem_map.mpr ⟨x, hx, hb⟩) h
    · simpa using hb

theorem findIndex_beq_some_id (g : α → String) (s : String) {l : List α} {i : Nat}
    (h : findIndex (fun x => g x == s) l = some i) :
    ∃ x, l[i]? = some x ∧ g x = s := by
  obtain ⟨x, hx, hpx⟩ := findIndex_eq_some_getElem? h
  exact ⟨x, hx, by simpa using hpx⟩

theorem lt_length_of_getElem? {l : List α} {i : Nat} {x : α}
    (h : l[i]? = some x) : i < l.length := by
  by_contra hge
  rw [List.getElem?_eq_none (by omega)] at h
  cases h

theorem findIndex_beq_exists_of_mem (g : α → String) (s : String) {l : List α}
    (h : s ∈ l.map g) : ∃ i, findIndex (fun x => g x == s) l = some i := by
  cases hf : findIndex (fun x => g x == s) l with
  | some i => exact ⟨i, rfl⟩
  | none => exact absurd h ((findIndex_beq_eq_none_iff g s l).mp hf)

theorem nodup_map_removeAt? (g : α → β) {l : List α} (h : (l.map g).Nodup)
    (i? : Option Nat) : ((removeAt? l i?).map g).Nodup := by
  cases i? with
  | none => exact h
  | some i =>
    rw [removeAt?, map_removeIdx]
    exact nodup_removeIdx _ i h

theorem nodup_map_modifyAt? (g : α → String) (f : α → α) {l : List α}
    (oldId newId : String) (h : (l.map g).Nodup) (i? : Option Nat)
    (hfind : ∀ i, i? = some i → ∃ x, l[i]? = some x ∧ g x = oldId ∧ g (f x) = newId)
    (hcase : newId = oldId ∨ newId ∉ l.map g) :
    ((modifyAt? l f i?).map g).Nodup := by
  cases i? with
  | none => exact h
  | some i =>
    obtain ⟨x, hx, hgx, hgfx⟩ := hfind i rfl
    rw [modifyAt?, map_modifyIdx_of_getElem? g f hx]
    apply nodup_modifyIdx_const h
    rcases hcase with hEq | hnot
    · left
      rw [List.getElem?_map g l i, hx, Option.map_some', hgx, hgfx, hEq]
    · right
      rw [hgfx]
      exact hnot

/-! ### Success-path inversion lemmas for the handlers -/

theorem addItemStdio_written_inv {cfg cfg' : State} {writeErr : Option String}
    {item : ItemInput}
    (h : (addItemStdio (.ok (some cfg)) writeErr item).written = some cfg') :
    writeErr = none ∧
      cfg.sidebar.any (fun x => x.id == item.id) = false ∧
      cfg.pages.any (fun x => x.id == item.id) = false ∧
      cfg' = { pages := cfg.pages ++ [stdioPageItem item],
               sidebar := cfg.sidebar ++ [stdioSidebarItem item] } := by
  simp only [addItemStdio] at h
  split at h
  · simp at h
  · split at h
    · simp at h
    · split at h
      · simp at h
      · simp_all

theorem addItemHttp_written_inv {cfg cfg' : State} {writeErr : Option String}
    {item : ItemInput}
    (h : (addItemHttp (.ok (some cfg)) writeErr item).written = some cfg') :
    writeErr = none ∧
      cfg.sidebar.any (fun x => x.id == item.id) = false ∧
      cfg.pages.any (fun x => x.id == item.id) = false ∧
      cfg' = { pages := cfg.pages ++ [httpPageItem item],
               sidebar := cfg.sidebar ++ [httpSidebarItem item] } := by
  simp only [addItemHttp] at h
  split at h
  · simp at h
  · split at h
    · simp at h
    · split at h
      · simp at h
      · simp_all

theorem deleteItem_written_inv {cfg cfg' : State} {writeErr : Option String}
    {id : String}
    (h : (deleteItem (.ok (some cfg)) writeErr id).written = some cfg') :
    writeErr = none ∧
      ((findIndex (fun x => x.id == id) cfg.sidebar).isNone &&
        (findIndex (fun x => x.id == id) cfg.pages).isNone) = false ∧
      cfg' = { pages := removeAt? cfg.pages (findIndex (fun x => x.id == id) cfg.pages),
               sidebar :=
                 removeAt? cfg.sidebar (findIndex (fun x => x.id == id) cfg.sidebar) } := by
  simp only [deleteItem] at h
  split at h
  · rename_i hcond
    simp at h
  · rename_i hcond
    split at h
    · simp at h
    · refine ⟨by simp_all, Bool.eq_false_iff.mpr hcond, ?_⟩
      simp_all

theorem updateItemHttp_written_inv {cfg cfg' : State} {writeErr : Option String}
    {oldId : String} {ni : NewItemInput}
    (h : (updateItemHttp (.ok (some cfg)) writeErr oldId ni).written = some cfg') :
    writeErr = none ∧
      ((findIndex (fun x => x.id == oldId) cfg.sidebar).isNone &&
        (findIndex (fun x => x.id == oldId) cfg.pages).isNone) = false ∧
      renameCollides cfg oldId ni.id = false ∧
      cfg' = { pages := modifyAt? cfg.pages (fun _ => httpUpdatedPage oldId ni)
                 (findIndex (fun x => x.id == oldId) cfg.pages),
               sidebar := modifyAt? cfg.sidebar (fun _ => httpUpdatedSidebar oldId ni)
                 (findIndex (fun x => x.id == oldId) cfg.sidebar) } := by
  simp only [updateItemHttp] at h
  split at h
  · simp at h
  · rename_i hcond
    split at h
    · simp at h
    · rename_i hcol
      split at h
      · simp at h
      · refine ⟨by simp_all, Bool.eq_false_iff.mpr hcond, Bool.eq_false_iff.mpr hcol, ?_⟩
        simp_all

theorem updateItemStdio_written_inv {cfg cfg' : State} {writeErr : Option String}
    {oldId : String} {ni : NewItemInput}
    (h : (updateItemStdio (.ok (some cfg)) writeErr oldId ni).written = some cfg') :
    writeErr = none ∧
      ((findIndex (fun x => x.id == oldId) cfg.sidebar).isNone &&
        (findIndex (fun x => x.id == oldId) cfg.pages).isNone) = false ∧
      renameCollides cfg oldId ni.id = false ∧
      cfg' = { pages := modifyAt? cfg.pages (stdioUpdatedPage ni)
                 (findIndex (fun x => x.id == oldId) cfg.pages),
               sidebar := modifyAt? cfg.sidebar (stdioUpdatedSidebar ni)
                 (findIndex (fun x => x.id == oldId) cfg.sidebar) } := by
  simp only [updateItemStdio] at h
  split at h
  · simp at h
  · rename_i hcond
    split at h
    · simp at h
    · rename_i hcol
      split at h
      · simp at h
      · refine ⟨by simp_all, Bool.eq_false_iff.mpr hcond, Bool.eq_false_iff.mpr hcol, ?_⟩
        simp_all

/-! ### The claims -/

/-- Claim C8: getConfig (GET /api/config) returns the stored Config
verbatim when the stored value is present, and the empty default when the
stored value is absent; a read error yields a 500 response with the read
failure message. -/
theorem C8_getConfig_verbatim_or_default :
    (∀ cfg : State, getConfig (.ok (some cfg)) = .ok cfg) ∧
      getConfig (.ok none) = .ok emptyState ∧
      ∀ e : String, getConfig (.error e) = .serverError 500 (loadFailText e) :=
  ⟨fun _ => rfl, rfl, fun _ => rfl⟩

/-- Claim C3: a successful addItem on a fresh id appends exactly one Page
and one SidebarItem with matching ids and grows each sequence by one, for
both addItem variants; in particular, from the empty document, the
toolHandlers addItem with id home and title Home yields exactly the
documented result. -/
theorem C3_addItem_appends_one (cfg cfg' : State) (writeErr : Option String)
    (item : ItemInput)
    (hs : item.id ∉ cfg.sidebar.map SidebarItem.id)
    (hp : item.id ∉ cfg.pages.map Page.id) :
    ((addItemHttp (.ok (some cfg)) writeErr item).written = some cfg' →
      ∃ pg sb, cfg'.pages = cfg.pages ++ [pg] ∧ cfg'.sidebar = cfg.sidebar ++ [sb] ∧
        pg.id = sb.id ∧ cfg'.pages.length = cfg.pages.length + 1 ∧
        cfg'.sidebar.length = cfg.sidebar.length + 1) ∧
    ((addItemStdio (.ok (some cfg)) writeErr item).written = some cfg' →
      ∃ pg sb, cfg'.pages = cfg.pages ++ [pg] ∧ cfg'.sidebar = cfg.sidebar ++ [sb] ∧
        pg.id = sb.id ∧ cfg'.pages.length = cfg.pages.length + 1 ∧
        cfg'.sidebar.length = cfg.sidebar.length + 1) ∧
    (addItemHttp (.ok (some emptyState)) none { id := "home", title := some "Home" }).written =
      some { pages := [{ id := "home", title := "Home", content := "" }],
             sidebar := [{ id := "home", label := "Home", active := false }] } := by
  refine ⟨fun h => ?_, fun h => ?_, by decide⟩
  · obtain ⟨-, -, -, rfl⟩ := addItemHttp_written_inv h
    exact ⟨httpPageItem item, httpSidebarItem item, rfl, rfl, rfl, by simp, by simp⟩
  · obtain ⟨-, -, -, rfl⟩ := addItemStdio_written_inv h
    exact ⟨stdioPageItem item, stdioSidebarItem item, rfl, rfl, rfl, by simp, by simp⟩

/-- Witness for C3 at a concrete input: the freshness hypotheses hold on a
one-entry document with a different id and the conclusion is produced by
the theorem itself. -/
theorem C3_addItem_appends_one_witness :
    (addItemHttp (.ok (some emptyState)) none { id := "home", title := some "Home" }).written =
      some { pages := [{ id := "home", title := "Home", content := "" }],
             sidebar := [{ id := "home", label := "Home", active := false }] } :=
  (C3_addItem_appends_one emptyState emptyState none { id := "home" }
    (by decide) (by decide)).2.2

/-- Claim C4: addItem on an id already present in either sequence leaves
the store unwritten and answers with the duplicate-id failure message that
names the id, in both addItem variants. -/
theorem C4_duplicate_add_rejected (cfg : State) (writeErr : Option String)
    (item : ItemInput)
    (hdup : item.id ∈ cfg.sidebar.map SidebarItem.id ∨
      item.id ∈ cfg.pages.map Page.id) :
    ((addItemStdio (.ok (some cfg)) writeErr item).written = none ∧
      ((addItemStdio (.ok (some cfg)) writeErr item).resp =
          textResp (addDupSidebarText item.id) ∨
        (addItemStdio (.ok (some cfg)) writeErr item).resp =
          textResp (addDupPageText item.id))) ∧
    ((addItemHttp (.ok (some cfg)) writeErr item).written = none ∧
      ((addItemHttp (.ok (some cfg)) writeErr item).resp =
          textResp (addDupSidebarText item.id) ∨
        (addItemHttp (.ok (some cfg)) writeErr item).resp =
          textResp (addDupPageText item.id))) := by
  by_cases hmem : item.id ∈ cfg.sidebar.map SidebarItem.id
  · have hA : cfg.sidebar.any (fun x => x.id == item.id) = true :=
      (any_beq_eq_true_iff SidebarItem.id item.id cfg.sidebar).mpr hmem
    constructor
    · constructor
      · simp [addItemStdio, hA]
      · left; simp [addItemStdio, hA]
    · constructor
      · simp [addItemHttp, hA]
      · left; simp [addItemHttp, hA]
  · have hA : cfg.sidebar.any (fun x => x.id == item.id) = false :=
      (any_beq_eq_false_iff SidebarItem.id item.id cfg.sidebar).mpr hmem
    have hmp : item.id ∈ cfg.pages.map Page.id := hdup.resolve_left hmem
    have hB : cfg.pages.any (fun x => x.id == item.id) = true :=
      (any_beq_eq_true_iff Page.id item.id cfg.pages).mpr hmp
    constructor
    · constructor
      · simp [addItemStdio, hA, hB]
      · right; simp [addItemStdio, hA, hB]
    · constructor
      · simp [addItemHttp, hA, hB]
      · right; simp [addItemHttp, hA, hB]

/-- Witness for C4 at a concrete input: adding the already present id a
leaves the store unwritten and answers the sidebar-duplicate message. -/
theorem C4_duplicate_add_rejected_witness :
    ((addItemStdio
        (.ok (some { pages := [{ id := "a", title := "t", content := "" }],
                     sidebar := [{ id := "a", label := "l", active := false }] }))
        none { id := "a" }).written = none ∧
      ((addItemStdio
          (.ok (some { pages := [{ id := "a", title := "t", content := "" }],
                       sidebar := [{ id := "a", label := "l", active := false }] }))
          none { id := "a" }).resp = textResp (addDupSidebarText "a") ∨
        (addItemStdio
          (.ok (some { pages := [{ id := "a", title := "t", content := "" }],
                       sidebar := [{ id := "a", label := "l", active := false }] }))
          none { id := "a" }).resp = textResp (addDupPageText "a"))) ∧
    ((addItemHttp
        (.ok (some { pages := [{ id := "a", title := "t", content := "" }],
                     sidebar := [{ id := "a", label := "l", active := false }] }))
        none { id := "a" }).written = none ∧
      ((addItemHttp
          (.ok (some { pages := [{ id := "a", title := "t", content := "" }],
                       sidebar := [{ id := "a", label := "l", active := false }] }))
          none { id := "a" }).resp = textResp (addDupSidebarText "a") ∨
        (addItemHttp
          (.ok (some { pages := [{ id := "a", title := "t", content := "" }],
                       sidebar := [{ id := "a", label := "l", active := false }] }))
          none { id := "a" }).resp = textResp (addDupPageText "a"))) :=
  C4_duplicate_add_rejected
    { pages := [{ id := "a", title := "t", content := "" }],
      sidebar := [{ id := "a", label := "l", active := false }] }
    none { id := "a" } (by decide)

/-- Claim C6: deleting an id present in exactly one of the two sequences
removes only the matched entry of that sequence and leaves the other
sequence untouched; deleting an id present in neither sequence writes
nothing and answers the not-found message. -/
theorem C6_delete_one_sided_or_absent (cfg : State) (writeErr : Option String)
    (id : String) :
    (∀ cfg', id ∈ cfg.sidebar.map SidebarItem.id → id ∉ cfg.pages.map Page.id →
      (deleteItem (.ok (some cfg)) writeErr id).written = some cfg' →
      cfg'.pages = cfg.pages ∧
        ∃ i, findIndex (fun x => x.id == id) cfg.sidebar = some i ∧
          cfg'.sidebar = removeIdx cfg.sidebar i ∧
          cfg'.sidebar.length + 1 = cfg.sidebar.length) ∧
    (∀ cfg', id ∈ cfg.pages.map Page.id → id ∉ cfg.sidebar.map SidebarItem.id →
      (deleteItem (.ok (some cfg)) writeErr id).written = some cfg' →
      cfg'.sidebar = cfg.sidebar ∧
        ∃ i, findIndex (fun x => x.id == id) cfg.pages = some i ∧
          cfg'.pages = removeIdx cfg.pages i ∧
          cfg'.pages.length + 1 = cfg.pages.length) ∧
    (id ∉ cfg.sidebar.map SidebarItem.id → id ∉ cfg.pages.map Page.id →
      (deleteItem (.ok (some cfg)) writeErr id).written = none ∧
        (deleteItem (.ok (some cfg)) writeErr id).resp = textResp (notFoundText id)) := by
  refine ⟨fun cfg' hmem hnot h => ?_, fun cfg' hmem hnot h => ?_, fun hns hnp => ?_⟩
  · obtain ⟨-, -, rfl⟩ := deleteItem_written_inv h
    have hfp : findIndex (fun x => x.id == id) cfg.pages = none :=
      (findIndex_beq_eq_none_iff Page.id id cfg.pages).mpr hnot
    obtain ⟨i, hfs⟩ := findIndex_beq_exists_of_mem SidebarItem.id id hmem
    obtain ⟨x, hx, -⟩ := findIndex_beq_some_id SidebarItem.id id hfs
    have hlt : i < cfg.sidebar.length := lt_length_of_getElem? hx
    refine ⟨by simp [hfp, removeAt?], i, hfs, by simp [hfs, removeAt?], ?_⟩
    simp only [hfs, removeAt?]
    exact length_removeIdx hlt
  · obtain ⟨-, -, rfl⟩ := deleteItem_written_inv h
    have hfs : findIndex (fun x => x.id == id) cfg.sidebar = none :=
      (findIndex_beq_eq_none_iff SidebarItem.id id cfg.sidebar).mpr hnot
    obtain ⟨i, hfp⟩ := findIndex_beq_exists_of_mem Page.id id hmem
    obtain ⟨x, hx, -⟩ := findIndex_beq_some_id Page.id id hfp
    have hlt : i < cfg.pages.length := lt_length_of_getElem? hx
    refine ⟨by simp [hfs, removeAt?], i, hfp, by simp [hfp, removeAt?], ?_⟩
    simp only [hfp, removeAt?]
    exact length_removeIdx hlt
  · have hfs : findIndex (fun x => x.id == id) cfg.sidebar = none :=
      (findIndex_beq_eq_none_iff SidebarItem.id id cfg.sidebar).mpr hns
    have hfp : findIndex (fun x => x.id == id) cfg.pages = none :=
      (findIndex_beq_eq_none_iff Page.id id cfg.pages).mpr hnp
    constructor
    · simp [deleteItem, hfs, hfp]
    · simp [deleteItem, hfs, hfp]

/-- Witness for C6 at concrete inputs: an id present only in the sidebar
is removed from the sidebar only, and an absent id writes nothing. -/
theorem C6_delete_one_sided_or_absent_witness :
    ({ pages := [{ id := "b", title := "t", content := "" }],
       sidebar := [] } : State).pages =
        ({ pages := [{ id := "b", title := "t", content := "" }],
           sidebar := [{ id := "a", label := "l", active := false }] } : State).pages ∧
      ∃ i, findIndex (fun x => x.id == "a")
          ({ pages := [{ id := "b", title := "t", content := "" }],
             sidebar := [{ id := "a", label := "l", active := false }] } : State).sidebar =
            some i ∧
        ({ pages := [{ id := "b", title := "t", content := "" }],
           sidebar := [] } : State).sidebar =
          removeIdx
            ({ pages := [{ id := "b", title := "t", content := "" }],
               sidebar := [{ id := "a", label := "l", active := false }] } : State).sidebar
            i ∧
        ({ pages := [{ id := "b", title := "t", content := "" }],
           sidebar := [] } : State).sidebar.length + 1 =
          ({ pages := [{ id := "b", title := "t", content := "" }],
             sidebar := [{ id := "a", label := "l", active := false }] } :
            State).sidebar.length :=
  (C6_delete_one_sided_or_absent
      { pages := [{ id := "b", title := "t", content := "" }],
        sidebar := [{ id := "a", label := "l", active := false }] }
      none "a").1
    { pages := [{ id := "b", title := "t", content := "" }], sidebar := [] }
    (by decide) (by decide) (by decide)

/-- Claim C9: on a document whose sequences may repeat an id, deleteItem
removes exactly the first matching entry of each sequence, leaving the
prefix and the whole suffix, later duplicates included, in place. -/
theorem C9_delete_removes_first_match (p₁ p₂ : List Page) (s₁ s₂ : List SidebarItem)
    (a : Page) (b : SidebarItem) (id : String)
    (ha : a.id = id) (hb : b.id = id)
    (h₁ : ∀ x ∈ p₁, x.id ≠ id) (h₂ : ∀ x ∈ s₁, x.id ≠ id) :
    (deleteItem (.ok (some { pages := p₁ ++ a :: p₂, sidebar := s₁ ++ b :: s₂ }))
        none id).written =
      some { pages := p₁ ++ p₂, sidebar := s₁ ++ s₂ } := by
  have hfp : findIndex (fun x => x.id == id) (p₁ ++ a :: p₂) = some p₁.length :=
    findIndex_append_cons p₂ (by simp [ha]) p₁
      (fun x hx => by simp [beq_eq_false_iff_ne, h₁ x hx])
  have hfs : findIndex (fun x => x.id == id) (s₁ ++ b :: s₂) = some s₁.length :=
    findIndex_append_cons s₂ (by simp [hb]) s₁
      (fun x hx => by simp [beq_eq_false_iff_ne, h₂ x hx])
  simp [deleteItem, hfp, hfs, removeAt?, removeIdx_append]

/-- Witness for C9 at a concrete input: with the id d duplicated in both
sequences, only the first occurrence of each sequence is deleted. -/
theorem C9_delete_removes_first_match_witness :
    (deleteItem
        (.ok (some { pages := [{ id := "d", title := "t1", content := "" },
                               { id := "d", title := "t2", content := "" }],
                     sidebar := [{ id := "d", label := "l1", active := false },
                                 { id := "d", label := "l2", active := false }] }))
        none "d").written =
      some { pages := [{ id := "d", title := "t2", content := "" }],
             sidebar := [{ id := "d", label := "l2", active := false }] } :=
  C9_delete_removes_first_match [] [{ id := "d", title := "t2", content := "" }]
    [] [{ id := "d", label := "l2", active := false }]
    { id := "d", title := "t1", content := "" }
    { id := "d", label := "l1", active := false } "d"
    rfl rfl (by simp) (by simp)

/-- Claim C1 counterexample: starting from a document that satisfies the
uniqueness invariant, the toolHandlers addItem succeeds on the id HOME
(the duplicate scan compares the original casing) yet stores the
lower-cased id home a second time, so the written document violates the
invariant. -/
theorem C1_counterexample_casefold_breaks_uniqueness :
    cfgC1.uniqueIds ∧
      (addItemHttp (.ok (some cfgC1)) none { id := "HOME" }).written = some cfgC1res ∧
      ¬ cfgC1res.uniqueIds := by decide

/-- Claim C1 (amended): on a document satisfying the uniqueness invariant,
a successful deleteItem and a successful stdio addItem always preserve the
invariant; the case-folding toolHandlers addItem preserves it provided the
lower-cased id is absent from both sequences, and the updateItem variants
preserve it provided the effective new stored id either equals the old id
or occurs in neither sequence. -/
theorem C1_amended_uniqueness_preservation :
    (∀ (cfg cfg' : State) (writeErr : Option String) (id : String),
      cfg.uniqueIds →
      (deleteItem (.ok (some cfg)) writeErr id).written = some cfg' →
      cfg'.uniqueIds) ∧
    (∀ (cfg cfg' : State) (writeErr : Option String) (item : ItemInput),
      cfg.uniqueIds →
      (addItemStdio (.ok (some cfg)) writeErr item).written = some cfg' →
      cfg'.uniqueIds) ∧
    (∀ (cfg cfg' : State) (writeErr : Option String) (item : ItemInput),
      cfg.uniqueIds →
      jsToLower item.id ∉ cfg.sidebar.map SidebarItem.id →
      jsToLower item.id ∉ cfg.pages.map Page.id →
      (addItemHttp (.ok (some cfg)) writeErr item).written = some cfg' →
      cfg'.uniqueIds) ∧
    (∀ (cfg cfg' : State) (writeErr : Option String) (oldId : String)
        (ni : NewItemInput),
      cfg.uniqueIds →
      (orFalsy (ni.id.map jsToLower) oldId = oldId ∨
        (orFalsy (ni.id.map jsToLower) oldId ∉ cfg.sidebar.map SidebarItem.id ∧
          orFalsy (ni.id.map jsToLower) oldId ∉ cfg.pages.map Page.id)) →
      (updateItemHttp (.ok (some cfg)) writeErr oldId ni).written = some cfg' →
      cfg'.uniqueIds) ∧
    (∀ (cfg cfg' : State) (writeErr : Option String) (oldId : String)
        (ni : NewItemInput),
      cfg.uniqueIds →
      (ni.id.getD oldId = oldId ∨
        (ni.id.getD oldId ∉ cfg.sidebar.map SidebarItem.id ∧
          ni.id.getD oldId ∉ cfg.pages.map Page.id)) →
      (updateItemStdio (.ok (some cfg)) writeErr oldId ni).written = some cfg' →
      cfg'.uniqueIds) := by
  refine ⟨?_, ?_, ?_, ?_, ?_⟩
  · intro cfg cfg' writeErr id hu h
    obtain ⟨-, -, rfl⟩ := deleteItem_written_inv h
    exact ⟨nodup_map_removeAt? Page.id hu.1 _, nodup_map_removeAt? SidebarItem.id hu.2 _⟩
  · intro cfg cfg' writeErr item hu h
    obtain ⟨-, hAs, hAp, rfl⟩ := addItemStdio_written_inv h
    have hns : item.id ∉ cfg.sidebar.map SidebarItem.id :=
      (any_beq_eq_false_iff SidebarItem.id item.id cfg.sidebar).mp hAs
    have hnp : item.id ∉ cfg.pages.map Page.id :=
      (any_beq_eq_false_iff Page.id item.id cfg.pages).mp hAp
    constructor
    · rw [show ((cfg.pages ++ [stdioPageItem item]).map Page.id) =
          cfg.pages.map Page.id ++ [item.id] from by simp [stdioPageItem]]
      exact nodup_append_singleton hu.1 hnp
    · rw [show ((cfg.sidebar ++ [stdioSidebarItem item]).map SidebarItem.id) =
          cfg.sidebar.map SidebarItem.id ++ [item.id] from by simp [stdioSidebarItem]]
      exact nodup_append_singleton hu.2 hns
  · intro cfg cfg' writeErr item hu hns hnp h
    obtain ⟨-, -, -, rfl⟩ := addItemHttp_written_inv h
    constructor
    · rw [show ((cfg.pages ++ [httpPageItem item]).map Page.id) =
          cfg.pages.map Page.id ++ [jsToLower item.id] from by simp [httpPageItem]]
      exact nodup_append_singleton hu.1 hnp
    · rw [show ((cfg.sidebar ++ [httpSidebarItem item]).map SidebarItem.id) =
          cfg.sidebar.map SidebarItem.id ++ [jsToLower item.id] from by
            simp [httpSidebarItem]]
      exact nodup_append_singleton hu.2 hns
  · intro cfg cfg' writeErr oldId ni hu hcase h
    obtain ⟨-, -, -, rfl⟩ := updateItemHttp_written_inv h
    constructor
    · refine nodup_map_modifyAt? Page.id _ oldId
        (orFalsy (ni.id.map jsToLower) oldId) hu.1 _ (fun i hi => ?_) ?_
      · obtain ⟨x, hx, hgx⟩ := findIndex_beq_some_id Page.id oldId hi
        exact ⟨x, hx, hgx, rfl⟩
      · rcases hcase with hEq | hfresh
        · exact Or.inl hEq
        · exact Or.inr hfresh.2
    · refine nodup_map_modifyAt? SidebarItem.id _ oldId
        (orFalsy (ni.id.map jsToLower) oldId) hu.2 _ (fun i hi => ?_) ?_
      · obtain ⟨x, hx, hgx⟩ := findIndex_beq_some_id SidebarItem.id oldId hi
        exact ⟨x, hx, hgx, rfl⟩
      · rcases hcase with hEq | hfresh
        · exact Or.inl hEq
        · exact Or.inr hfresh.1
  · intro cfg cfg' writeErr oldId ni hu hcase h
    obtain ⟨-, -, -, rfl⟩ := updateItemStdio_written_inv h
    constructor
    · refine nodup_map_modifyAt? Page.id _ oldId (ni.id.getD oldId) hu.1 _
        (fun i hi => ?_) ?_
      · obtain ⟨x, hx, hgx⟩ := findIndex_beq_some_id Page.id oldId hi
        exact ⟨x, hx, hgx, by simp [stdioUpdatedPage, hgx]⟩
      · rcases hcase with hEq | hfresh
        · exact Or.inl hEq
        · exact Or.inr hfresh.2
    · refine nodup_map_modifyAt? SidebarItem.id _ oldId (ni.id.getD oldId) hu.2 _
        (fun i hi => ?_) ?_
      · obtain ⟨x, hx, hgx⟩ := findIndex_beq_some_id SidebarItem.id oldId hi
        exact ⟨x, hx, hgx, by simp [stdioUpdatedSidebar, hgx]⟩
      · rcases hcase with hEq | hfresh
        · exact Or.inl hEq
        · exact Or.inr hfresh.1

/-- Witness for the amended C1 at a concrete input: the toolHandlers
addItem of fresh id B on a unique one-entry document yields a unique
document, with every hypothesis discharged by evaluation. -/
theorem C1_amended_uniqueness_preservation_witness :
    State.uniqueIds
      { pages := [{ id := "a", title := "t", content := "" },
                  { id := "b", title := "Page B", content := "" }],
        sidebar := [{ id := "a", label := "l", active := false },
                    { id := "b", label := "B", active := false }] } :=
  C1_amended_uniqueness_preservation.2.2.1
    { pages := [{ id := "a", title := "t", content := "" }],
      sidebar := [{ id := "a", label := "l", active := false }] }
    { pages := [{ id := "a", title := "t", content := "" },
                { id := "b", title := "Page B", content := "" }],
      sidebar := [{ id := "a", label := "l", active := false },
                  { id := "b", label := "B", active := false }] }
    none { id := "B" } (by decide) (by decide) (by decide) (by decide)

/-- Claim C2 counterexample: the toolHandlers updateItem of id home with
an entirely empty update does not keep the omitted fields at their prior
values: label Custom becomes Home, active true becomes false, title
MyTitle becomes Page home and content Stuff becomes the welcome template. -/
theorem C2_counterexample_http_resets_omitted_fields :
    (updateItemHttp (.ok (some cfgC2)) none "home" {}).written = some cfgC2res ∧
      cfgC2res.sidebar ≠ cfgC2.sidebar ∧ cfgC2res.pages ≠ cfgC2.pages := by decide

/-- Claim C2 (amended): the claim holds for the stdio updateItem only: with
newItem.id absent or equal to the old id, the matched entries keep their id
and every omitted field keeps its prior value, entries at other positions
are untouched, and an unmatched sequence is returned unchanged.  The
toolHandlers variant instead resets omitted fields to template defaults. -/
theorem C2_amended_stdio_update_frames (cfg cfg' : State) (writeErr : Option String)
    (oldId : String) (ni : NewItemInput)
    (hid : ni.id = none ∨ ni.id = some oldId)
    (hw : (updateItemStdio (.ok (some cfg)) writeErr oldId ni).written = some cfg') :
    (∀ i, findIndex (fun x => x.id == oldId) cfg.sidebar = some i →
      cfg'.sidebar.length = cfg.sidebar.length ∧
      (∀ j, j ≠ i → cfg'.sidebar[j]? = cfg.sidebar[j]?) ∧
      cfg'.sidebar[i]? = cfg.sidebar[i]?.map (fun prev =>
        { id := prev.id, label := ni.label.getD prev.label,
          active := ni.active.getD prev.active })) ∧
    (∀ i, findIndex (fun x => x.id == oldId) cfg.pages = some i →
      cfg'.pages.length = cfg.pages.length ∧
      (∀ j, j ≠ i → cfg'.pages[j]? = cfg.pages[j]?) ∧
      cfg'.pages[i]? = cfg.pages[i]?.map (fun prev =>
        { id := prev.id, title := ni.title.getD prev.title,
          content := ni.content.getD prev.content })) ∧
    (findIndex (fun x => x.id == oldId) cfg.sidebar = none →
      cfg'.sidebar = cfg.sidebar) ∧
    (findIndex (fun x => x.id == oldId) cfg.pages = none →
      cfg'.pages = cfg.pages) := by
  obtain ⟨-, -, -, rfl⟩ := updateItemStdio_written_inv hw
  refine ⟨fun i hi => ?_, fun i hi => ?_, fun hn => ?_, fun hn => ?_⟩
  · obtain ⟨x, hx, hgx⟩ := findIndex_beq_some_id SidebarItem.id oldId hi
    refine ⟨?_, fun j hj => ?_, ?_⟩
    · simp [hi, modifyAt?, length_modifyIdx]
    · simp only [hi, modifyAt?]
      exact getElem?_modifyIdx_ne _ hj
    · simp only [hi, modifyAt?, getElem?_modifyIdx_self, hx, Option.map_some']
      rcases hid with hnone | hsome
      · simp [stdioUpdatedSidebar, hnone]
      · simp [stdioUpdatedSidebar, hsome, hgx]
  · obtain ⟨x, hx, hgx⟩ := findIndex_beq_some_id Page.id oldId hi
    refine ⟨?_, fun j hj => ?_, ?_⟩
    · simp [hi, modifyAt?, length_modifyIdx]
    · simp only [hi, modifyAt?]
      exact getElem?_modifyIdx_ne _ hj
    · simp only [hi, modifyAt?, getElem?_modifyIdx_self, hx, Option.map_some']
      rcases hid with hnone | hsome
      · simp [stdioUpdatedPage, hnone]
      · simp [stdioUpdatedPage, hsome, hgx]
  · simp [hn, modifyAt?]
  · simp [hn, modifyAt?]

/-- Witness for the amended C2 at a concrete input: updating id a with only
a new label maps the single matched sidebar entry to one that keeps the id
and the prior active flag and takes the supplied label. -/
theorem C2_amended_stdio_update_frames_witness :
    ({ pages := [{ id := "a", title := "T", content := "C" }],
       sidebar := [{ id := "a", label := "L2", active := true }] } :
          State).sidebar[0]? =
        ({ pages := [{ id := "a", title := "T", content := "C" }],
           sidebar := [{ id := "a", label := "L", active := true }] } :
          State).sidebar[0]?.map (fun prev =>
            { id := prev.id,
              label := (some "L2").getD prev.label,
              active := (none : Option Bool).getD prev.active }) :=
  ((C2_amended_stdio_update_frames
      { pages := [{ id := "a", title := "T", content := "C" }],
        sidebar := [{ id := "a", label := "L", active := true }] }
      { pages := [{ id := "a", title := "T", content := "C" }],
        sidebar := [{ id := "a", label := "L2", active := true }] }
      none "a" { label := some "L2" } (Or.inl rfl) (by decide)).1
    0 (by decide)).2.2

/-- Claim C5 counterexample: renaming id a to the empty id, which is
supplied, differs from a and equals the id of another existing entry,
does not fail: the falsy empty string skips the collision guard, the
stdio updateItem succeeds and writes a document with the empty id
duplicated in both sequences. -/
theorem C5_counterexample_empty_id_skips_collision :
    ("" : String) ≠ "a" ∧
      "" ∈ cfgC5.sidebar.map SidebarItem.id ∧
      (updateItemStdio (.ok (some cfgC5)) none "a" { id := some "" }).written =
        some cfgC5res ∧
      (updateItemStdio (.ok (some cfgC5)) none "a" { id := some "" }).resp =
        textResp (updateSuccessText "a") ∧
      cfgC5res ≠ cfgC5 := by decide

/-- Claim C5 (amended): when the supplied new id is nonempty, differs from
the old id and equals the id of an existing entry, both updateItem
variants write nothing and answer the already-exists message naming the
new id. -/
theorem C5_amended_rename_collision_rejected (cfg : State) (writeErr : Option String)
    (oldId nid : String) (ni : NewItemInput)
    (hni : ni.id = some nid) (hne : nid ≠ "") (hdiff : nid ≠ oldId)
    (hcol : nid ∈ cfg.sidebar.map SidebarItem.id ∨ nid ∈ cfg.pages.map Page.id)
    (hexist : oldId ∈ cfg.sidebar.map SidebarItem.id ∨
      oldId ∈ cfg.pages.map Page.id) :
    ((updateItemStdio (.ok (some cfg)) writeErr oldId ni).written = none ∧
      (updateItemStdio (.ok (some cfg)) writeErr oldId ni).resp =
        textResp (updateDupText nid)) ∧
    ((updateItemHttp (.ok (some cfg)) writeErr oldId ni).written = none ∧
      (updateItemHttp (.ok (some cfg)) writeErr oldId ni).resp =
        textResp (updateDupText nid)) := by
  have hfound : ((findIndex (fun x => x.id == oldId) cfg.sidebar).isNone &&
      (findIndex (fun x => x.id == oldId) cfg.pages).isNone) = false := by
    rcases hexist with hmem | hmem
    · obtain ⟨i, hi⟩ := findIndex_beq_exists_of_mem SidebarItem.id oldId hmem
      simp [hi]
    · obtain ⟨i, hi⟩ := findIndex_beq_exists_of_mem Page.id oldId hmem
      simp [hi]
  have hcolT : renameCollides cfg oldId (some nid) = true := by
    rcases hcol with hmem | hmem
    · simp [renameCollides, bne_iff_ne, hne, hdiff,
        (any_beq_eq_true_iff SidebarItem.id nid cfg.sidebar).mpr hmem]
    · simp [renameCollides, bne_iff_ne, hne, hdiff,
        (any_beq_eq_true_iff Page.id nid cfg.pages).mpr hmem]
  constructor
  · constructor
    · simp [updateItemStdio, hfound, hcolT, hni]
    · simp [updateItemStdio, hfound, hcolT, hni]
  · constructor
    · simp [updateItemHttp, hfound, hcolT, hni]
    · simp [updateItemHttp, hfound, hcolT, hni]

/-- Witness for the amended C5 at a concrete input: renaming x to the
existing id y fails in both variants without a write. -/
theorem C5_amended_rename_collision_rejected_witness :
    ((updateItemStdio
        (.ok (some { pages := [{ id := "x", title := "t", content := "" },
                               { id := "y", title := "u", content := "" }],
                     sidebar := [{ id := "x", label := "l", active := false },
                                 { id := "y", label := "m", active := false }] }))
        none "x" { id := some "y" }).written = none ∧
      (updateItemStdio
        (.ok (some { pages := [{ id := "x", title := "t", content := "" },
                               { id := "y", title := "u", content := "" }],
                     sidebar := [{ id := "x", label := "l", active := false },
                                 { id := "y", label := "m", active := false }] }))
        none "x" { id := some "y" }).resp = textResp (updateDupText "y")) ∧
    ((updateItemHttp
        (.ok (some { pages := [{ id := "x", title := "t", content := "" },
                               { id := "y", title := "u", content := "" }],
                     sidebar := [{ id := "x", label := "l", active := false },
                                 { id := "y", label := "m", active := false }] }))
        none "x" { id := some "y" }).written = none ∧
      (updateItemHttp
        (.ok (some { pages := [{ id := "x", title := "t", content := "" },
                               { id := "y", title := "u", content := "" }],
                     sidebar := [{ id := "x", label := "l", active := false },
                                 { id := "y", label := "m", active := false }] }))
        none "x" { id := some "y" }).resp = textResp (updateDupText "y")) :=
  C5_amended_rename_collision_rejected
    { pages := [{ id := "x", title := "t", content := "" },
                { id := "y", title := "u", content := "" }],
      sidebar := [{ id := "x", label := "l", active := false },
                  { id := "y", label := "m", active := false }] }
    none "x" "y" { id := some "y" } rfl (by decide) (by decide)
    (by decide) (by decide)

/-- Claim C7: every handler is a total function that, for every input and
every outcome of the store read and write, answers a response consisting
of exactly one text entry; a read error is reported with the load-failure
message and nothing is written, and on the success path a failing write is
reported with the write-failure message and nothing is persisted. -/
theorem C7_handlers_always_text_response :
    (∀ (readRes : ReadResult) (writeErr : Option String) (item : ItemInput),
      (∃ t, (addItemStdio readRes writeErr item).resp = textResp t) ∧
        (∃ t, (addItemHttp readRes writeErr item).resp = textResp t)) ∧
    (∀ (readRes : ReadResult) (writeErr : Option String) (id : String),
      ∃ t, (deleteItem readRes writeErr id).resp = textResp t) ∧
    (∀ (readRes : ReadResult) (writeErr : Option String) (oldId : String)
        (ni : NewItemInput),
      (∃ t, (updateItemStdio readRes writeErr oldId ni).resp = textResp t) ∧
        (∃ t, (updateItemHttp readRes writeErr oldId ni).resp = textResp t)) ∧
    (∀ (e : String) (writeErr : Option String) (item : ItemInput) (id oldId : String)
        (ni : NewItemInput),
      (addItemStdio (.error e) writeErr item).resp = textResp (loadFailText e) ∧
        (addItemHttp (.error e) writeErr item).resp = textResp (loadFailText e) ∧
        (deleteItem (.error e) writeErr id).resp = textResp (loadFailText e) ∧
        (updateItemStdio (.error e) writeErr oldId ni).resp = textResp (loadFailText e) ∧
        (updateItemHttp (.error e) writeErr oldId ni).resp = textResp (loadFailText e) ∧
        (addItemStdio (.error e) writeErr item).written = none ∧
        (addItemHttp (.error e) writeErr item).written = none ∧
        (deleteItem (.error e) writeErr id).written = none ∧
        (updateItemStdio (.error e) writeErr oldId ni).written = none ∧
        (updateItemHttp (.error e) writeErr oldId ni).written = none) ∧
    (∀ (cfg : State) (e : String) (item : ItemInput),
      item.id ∉ cfg.sidebar.map SidebarItem.id →
      item.id ∉ cfg.pages.map Page.id →
      (addItemStdio (.ok (some cfg)) (some e) item).resp = textResp (writeFailText e) ∧
        (addItemStdio (.ok (some cfg)) (some e) item).written = none ∧
        (addItemHttp (.ok (some cfg)) (some e) item).resp = textResp (writeFailText e) ∧
        (addItemHttp (.ok (some cfg)) (some e) item).written = none) ∧
    (∀ (cfg : State) (e : String) (id : String),
      (id ∈ cfg.sidebar.map SidebarItem.id ∨ id ∈ cfg.pages.map Page.id) →
      (deleteItem (.ok (some cfg)) (some e) id).resp = textResp (writeFailText e) ∧
        (deleteItem (.ok (some cfg)) (some e) id).written = none) ∧
    (∀ (cfg : State) (e : String) (oldId : String) (ni : NewItemInput),
      (oldId ∈ cfg.sidebar.map SidebarItem.id ∨ oldId ∈ cfg.pages.map Page.id) →
      ni.id = none →
      (updateItemStdio (.ok (some cfg)) (some e) oldId ni).resp =
          textResp (writeFailText e) ∧
        (updateItemStdio (.ok (some cfg)) (some e) oldId ni).written = none ∧
        (updateItemHttp (.ok (some cfg)) (some e) oldId ni).resp =
          textResp (writeFailText e) ∧
        (updateItemHttp (.ok (some cfg)) (some e) oldId ni).written = none) := by
  refine ⟨fun readRes writeErr item => ⟨?_, ?_⟩, fun readRes writeErr id => ?_,
    fun readRes writeErr oldId ni => ⟨?_, ?_⟩,
    fun e writeErr item id oldId ni =>
      ⟨rfl, rfl, rfl, rfl, rfl, rfl, rfl, rfl, rfl, rfl⟩,
    fun cfg e item hns hnp => ?_, fun cfg e id hmem => ?_,
    fun cfg e oldId ni hmem hni => ?_⟩
  · cases readRes with
    | error e => exact ⟨_, rfl⟩
    | ok dc =>
      simp only [addItemStdio]
      repeat' split
      all_goals exact ⟨_, rfl⟩
  · cases readRes with
    | error e => exact ⟨_, rfl⟩
    | ok dc =>
      simp only [addItemHttp]
      repeat' split
      all_goals exact ⟨_, rfl⟩
  · cases readRes with
    | error e => exact ⟨_, rfl⟩
    | ok dc =>
      simp only [deleteItem]
      repeat' split
      all_goals exact ⟨_, rfl⟩
  · cases readRes with
    | error e => exact ⟨_, rfl⟩
    | ok dc =>
      simp only [updateItemStdio]
      repeat' split
      all_goals exact ⟨_, rfl⟩
  · cases readRes with
    | error e => exact ⟨_, rfl⟩
    | ok dc =>
      simp only [updateItemHttp]
      repeat' split
      all_goals exact ⟨_, rfl⟩
  · have hAs : cfg.sidebar.any (fun x => x.id == item.id) = false :=
      (any_beq_eq_false_iff SidebarItem.id item.id cfg.sidebar).mpr hns
    have hAp : cfg.pages.any (fun x => x.id == item.id) = false :=
      (any_beq_eq_false_iff Page.id item.id cfg.pages).mpr hnp
    exact ⟨by simp [addItemStdio, hAs, hAp], by simp [addItemStdio, hAs, hAp],
      by simp [addItemHttp, hAs, hAp], by simp [addItemHttp, hAs, hAp]⟩
  · have hfound : ((findIndex (fun x => x.id == id) cfg.sidebar).isNone &&
        (findIndex (fun x => x.id == id) cfg.pages).isNone) = false := by
      rcases hmem with hmem | hmem
      · obtain ⟨i, hi⟩ := findIndex_beq_exists_of_mem SidebarItem.id id hmem
        simp [hi]
      · obtain ⟨i, hi⟩ := findIndex_beq_exists_of_mem Page.id id hmem
        simp [hi]
    exact ⟨by simp [deleteItem, hfound], by simp [deleteItem, hfound]⟩
  · have hfound : ((findIndex (fun x => x.id == oldId) cfg.sidebar).isNone &&
        (findIndex (fun x => x.id == oldId) cfg.pages).isNone) = false := by
      rcases hmem with hmem | hmem
      · obtain ⟨i, hi⟩ := findIndex_beq_exists_of_mem SidebarItem.id oldId hmem
        simp [hi]
      · obtain ⟨i, hi⟩ := findIndex_beq_exists_of_mem Page.id oldId hmem
        simp [hi]
    have hcolF : renameCollides cfg oldId ni.id = false := by
      rw [hni]; rfl
    exact ⟨by simp [updateItemStdio, hfound, hcolF],
      by simp [updateItemStdio, hfound, hcolF],
      by simp [updateItemHttp, hfound, hcolF],
      by simp [updateItemHttp, hfound, hcolF]⟩

/-- Witness for C7 at a concrete input: a failing write on the add of a
fresh id is reported as the writeFailText response, with nothing written,
in both addItem variants. -/
theorem C7_handlers_always_text_response_witness :
    (addItemStdio (.ok (some emptyState)) (some "boom") { id := "x" }).resp =
        textResp (writeFailText "boom") ∧
      (addItemStdio (.ok (some emptyState)) (some "boom") { id := "x" }).written = none ∧
      (addItemHttp (.ok (some emptyState)) (some "boom") { id := "x" }).resp =
        textResp (writeFailText "boom") ∧
      (addItemHttp (.ok (some emptyState)) (some "boom") { id := "x" }).written = none :=
  C7_handlers_always_text_response.2.2.2.2.1 emptyState "boom" { id := "x" }
    (by decide) (by decide)

end CmsServer
